import Mathlib

/-
Verification development for the password-scoring engine in `src/Aditya.py`
(class `PasswordIntelligence`).  Every definition below is a shallow
embedding of the corresponding Python function; Python `float` arithmetic
is modelled over `ℚ`, the transcendental library calls `math.log` and
`math.log2` are passed in as unintepreted rational-valued functions, the
optional `zxcvbn` oracle as an `Option ℚ` (its raw 0–4 score, `none` when
the library is unavailable or raises), and `datetime.now()` as an opaque
timestamp string.  Machine-checked claims about the engine follow the
definitions.
-/

-- Core `Rat` arithmetic in Lean is marked `@[irreducible]`, which blocks
-- `decide`/`rfl` evaluation of concrete rational expressions; restore
-- definitional transparency (the definitions themselves are unchanged).
set_option allowUnsafeReducibility true in
attribute [semireducible] Rat.mul Rat.inv Rat.add Rat.sub Rat.neg Rat.div

/-! ## Module-level constants (src/Aditya.py lines 49–70) -/

/-- `COMMON_PASSWORDS` (lines 50–54): top-20 known-weak corpus. -/
def COMMON_PASSWORDS : List String :=
  ["password", "123456", "12345678", "qwerty", "abc123", "monkey", "1234567",
   "letmein", "trustno1", "dragon", "baseball", "111111", "iloveyou", "master",
   "sunshine", "ashley", "bailey", "passw0rd", "shadow", "123123"]

/-- `KEYBOARD_PATTERNS` (lines 57–61). -/
def KEYBOARD_PATTERNS : List String :=
  ["qwerty", "qwertyuiop", "asdf", "asdfgh", "asdfghjkl", "zxcv", "zxcvbnm",
   "12345", "123456", "1234567", "12345678", "123456789", "1234567890",
   "qaz", "wsx", "edc", "rfv", "tgb", "yhn", "ujm", "ik", "ol", "p"]

/-- `LEET_SUBSTITUTIONS` (lines 64–67), in Python dict insertion order
(significant: substitutions are applied in this order). -/
def LEET_SUBSTITUTIONS : List (Char × List Char) :=
  [('a', ['@', '4']), ('e', ['3']), ('i', ['1', '!']), ('o', ['0']),
   ('s', ['5', '$']), ('t', ['7']), ('l', ['1']), ('g', ['9']),
   ('b', ['6']), ('z', ['2'])]

/-- `CONFUSING_CHARS` (line 70). -/
def CONFUSING_CHARS : List Char := ['1', 'l', 'I', '0', 'O']

/-- The symbol-class literal `"!@#$%^&*()_+-=[]\x7b\x7d|;:,.<>?"` that the source
repeats at lines 264, 342 and (plus `0-9`) in the regexes at lines 146–147. -/
def PUNCT_SYMBOLS : List Char := "!@#$%^&*()_+-=[]\x7b\x7d|;:,.<>?".data

/-- The vowel set `'aeiou'` (lines 244, 287). -/
def VOWELS : List Char := ['a', 'e', 'i', 'o', 'u']

/-! ## Python string/number primitives -/

/-- Python `str.lower()` restricted to the ASCII range (adequate for every
string the engine manipulates). -/
def pyLower (l : List Char) : List Char := l.map Char.toLower

/-- Python substring containment `needle in hay`. -/
def strIn (needle : List Char) : List Char → Bool
  | [] => needle.isEmpty
  | c :: rest => needle.isPrefixOf (c :: rest) || strIn needle rest

/-- Python `int()` applied to a float: truncation toward zero. -/
def pyInt (q : ℚ) : ℤ := Int.tdiv q.num q.den

/-! ## Pattern library: `detect_patterns` (lines 180–272)

Each block of `detect_patterns` becomes one definition; `detectPatternsTotal`
concatenates the findings in source order.  A finding keeps the source dict
keys `type` / `description` / `penalty`. -/

structure Finding where
  ftype : String
  description : String
  penalty : ℚ
deriving Repr, DecidableEq

/-- Keyboard sequences (lines 186–192). -/
def keyboardFindings (password : String) : List Finding :=
  KEYBOARD_PATTERNS.filterMap fun pat =>
    if strIn pat.data (pyLower password.data) then
      some ⟨"keyboard_sequence",
            "Contains keyboard sequence \x27" ++ pat ++ "\x27", 3/10⟩
    else none

/-- Repeated characters (lines 195–201).  Python iterates over
`set(password)` whose order is unspecified; we fix the order of last
occurrence (`List.dedup`), which affects only the list order, not which
findings occur. -/
def repeatedCharFindings (password : String) : List Finding :=
  password.data.dedup.filterMap fun c =>
    let cnt := password.data.count c
    if cnt ≥ 3 then
      some ⟨"repeated_character",
            "Character \x27" ++ String.mk [c] ++ "\x27 repeats " ++
              toString cnt ++ " times",
            (1/5) * ((cnt : ℚ) - 2)⟩
    else none

/-- `token * (len(password) // i) == password[:len(token) * (len(password) // i)]`
(line 207). -/
def tokenRepeats (l : List Char) (i : ℕ) : Bool :=
  let k := l.length / i
  decide (List.flatten (List.replicate k (l.take i)) = l.take (i * k))

/-- Repeated tokens (lines 204–213); the `break` makes the first matching
token length win. -/
def repeatedTokenFindings (password : String) : List Finding :=
  if password.length ≥ 6 then
    match (List.range' 2 (password.length / 2 - 1)).find?
        (fun i => tokenRepeats password.data i) with
    | some i =>
        [⟨"repeated_token",
          "Repeating pattern \x27" ++ String.mk (password.data.take i) ++ "\x27",
          2/5⟩]
    | none => []
  else []

/-- Year patterns (lines 216–223): `range(1950, 2025 + 10)`. -/
def yearFindings (password : String) : List Finding :=
  (List.range' 1950 85).filterMap fun year =>
    if strIn (toString year).data password.data then
      some ⟨"year_pattern", "Contains year \x27" ++ toString year ++ "\x27", 3/20⟩
    else none

/-- `sequences` (line 226). -/
def NUMBER_SEQUENCES : List String :=
  ["123", "234", "345", "456", "567", "678", "789", "890"]

/-- Number sequences (lines 226–233): a sequence or its reverse as substring. -/
def sequenceFindings (password : String) : List Finding :=
  NUMBER_SEQUENCES.filterMap fun seq =>
    if strIn seq.data password.data || strIn seq.data.reverse password.data then
      some ⟨"number_sequence",
            "Contains number sequence \x27" ++ seq ++ "\x27", 1/4⟩
    else none

/-- Palindromes (lines 236–241). -/
def palindromeFindings (password : String) : List Finding :=
  if password.length ≥ 5 ∧ pyLower password.data = (pyLower password.data).reverse then
    [⟨"palindrome", "Password is a palindrome (e.g., \x27deked\x27)", 1/5⟩]
  else []

/-- `sum(1 for c in password_lower if c in vowels)` (line 245). -/
def vowelCount (password : String) : ℕ :=
  ((pyLower password.data).filter (fun c => VOWELS.contains c)).length

/-- Low vowel frequency (lines 244–251); guarded by `len(password) >= 8`,
so the division is safe here. -/
def lowVowelFindings (password : String) : List Finding :=
  if password.length ≥ 8 ∧ (vowelCount password : ℚ) / (password.length : ℚ) < 1/10 then
    [⟨"low_vowels", "Low vowel frequency (possibly random)", 3/10⟩]
  else []

/-- `all(password[j] == password[j % 2] for j in range(len(password)))`
(line 255). -/
def alternatingHolds (l : List Char) : Bool :=
  (List.range l.length).all fun j => l.getD j 'a' == l.getD (j % 2) 'a'

/-- Alternating patterns (lines 254–261): the loop body does not depend on
the loop variable, so the check fires at most once, and only when
`range(2, len // 2 + 1)` is nonempty. -/
def alternatingFindings (password : String) : List Finding :=
  if 2 < password.length / 2 + 1 ∧ alternatingHolds password.data then
    [⟨"alternating_pattern", "Alternating pattern detected", 3/10⟩]
  else []

/-- `sum(1 for c in password if c in "!@#$%^&*()_+-=[]\x7b\x7d|;:,.<>?")` (line 264). -/
def symbolCount (password : String) : ℕ :=
  (password.data.filter (fun c => PUNCT_SYMBOLS.contains c)).length

/-- All findings of `detect_patterns` in source order, for a NONEMPTY
password.  (On the empty string the final excessive-symbols ratio in the
source raises `ZeroDivisionError`; `detectPatterns` below models that.
Here the `ℚ`-division `0 / 0 = 0` would silently yield "no finding".) -/
def detectPatternsTotal (password : String) : List Finding :=
  keyboardFindings password ++ repeatedCharFindings password ++
  repeatedTokenFindings password ++ yearFindings password ++
  sequenceFindings password ++ palindromeFindings password ++
  lowVowelFindings password ++ alternatingFindings password ++
  (if (symbolCount password : ℚ) / (password.length : ℚ) > 1/2 then
    [⟨"excessive_symbols", "Too many symbols reduce readability", 1/5⟩]
   else [])

/-- `detect_patterns` (lines 180–272) as observed by a caller: on the empty
string the unguarded `symbol_count / len(password)` at line 265 raises
`ZeroDivisionError` (modelled as `none`); otherwise the finding list is
returned. -/
def detectPatterns (password : String) : Option (List Finding) :=
  if password.length = 0 then none else some (detectPatternsTotal password)

/-! ## Similarity matcher (lines 134–178) -/

/-- Python `str.replace(sub, char)` for the single-character patterns used
by the engine (every leet substitution and transformation replaces one
character by one character). -/
def replace1 (l : List Char) (sub ch : Char) : List Char :=
  l.map fun c => if c = sub then ch else c

/-- `_reverse_leet_speak` (lines 153–159): apply every substitution in
dict order. -/
def reverseLeetSpeak (l : List Char) : List Char :=
  LEET_SUBSTITUTIONS.foldl
    (fun res p => p.2.foldl (fun r sub => replace1 r sub p.1) res) l

/-- One DP step of `_simple_edit_distance` (lines 170–176): walking the
previous row two cells at a time; the third argument is the last cell of
the current row. -/
def levStep (c1 : Char) : List Char → List ℕ → ℕ → List ℕ
  | c2 :: cs, p0 :: p1 :: ps, d =>
      let v := min (p1 + 1) (min (d + 1) (p0 + (if c1 = c2 then 0 else 1)))
      v :: levStep c1 cs (p1 :: ps) v
  | _, _, _ => []

/-- The row loop of `_simple_edit_distance`: `current_row = [i + 1]`
followed by the inner loop. -/
def levRows (l2 : List Char) : List Char → ℕ → List ℕ → List ℕ
  | [], _, prev => prev
  | c1 :: cs, i, prev => levRows l2 cs (i + 1) ((i + 1) :: levStep c1 l2 prev (i + 1))

/-- Body of `_simple_edit_distance` (lines 161–178) after the initial swap
has established `len l1 ≥ len l2`: empty-s2 shortcut, the early exit with
sentinel 3 when the length gap exceeds 2, then the DP returning
`previous_row[-1]`. -/
def simpleEditDistanceCore (l1 l2 : List Char) : ℕ :=
  if l2.isEmpty then l1.length
  else if l1.length - l2.length > 2 then 3
  else (levRows l2 l1 0 (List.range (l2.length + 1))).getLastD 0

/-- `_simple_edit_distance` (lines 161–178).  The Python function recurses
exactly once, to swap the arguments so that `s1` is the longer one. -/
def simpleEditDistance (s1 s2 : List Char) : ℕ :=
  if s1.length < s2.length then simpleEditDistanceCore s2 s1
  else simpleEditDistanceCore s1 s2

/-- `_is_similar_password` (lines 144–151): strip leading punctuation and
trailing punctuation/digits (the two `re.sub` anchored character-class
deletions), de-leet, then exact match or edit distance ≤ 2. -/
def isSimilarPassword (password commonPwd : List Char) : Bool :=
  let cleaned1 := password.dropWhile (fun c => PUNCT_SYMBOLS.contains c)
  let cleaned :=
    (cleaned1.reverse.dropWhile (fun c => PUNCT_SYMBOLS.contains c || c.isDigit)).reverse
  let deleet := reverseLeetSpeak cleaned
  deleet == commonPwd || cleaned == commonPwd ||
    decide (simpleEditDistance deleet commonPwd ≤ 2)

/-- `check_common_passwords` (lines 134–142): exact lowercase membership
→ 0.9; first similar corpus entry → 0.7; otherwise (False, 0.0). -/
def checkCommonPasswords (password : String) : Bool × ℚ :=
  let pl := pyLower password.data
  if (COMMON_PASSWORDS.map (fun p => pyLower p.data)).contains pl then (true, 9/10)
  else if COMMON_PASSWORDS.any (fun c => isSimilarPassword pl (pyLower c.data)) then
    (true, 7/10)
  else (false, 0)

/-! ## Confusing characters (lines 274–283) -/

/-- `sum(1 for c in password if c in CONFUSING_CHARS)` (line 276). -/
def confusingCount (password : String) : ℕ :=
  (password.data.filter (fun c => CONFUSING_CHARS.contains c)).length

/-- The adjacent-pair scan of lines 278–281. -/
def hasConsecutiveConfusing : List Char → Bool
  | a :: b :: rest =>
      (CONFUSING_CHARS.contains a && CONFUSING_CHARS.contains b) ||
        hasConsecutiveConfusing (b :: rest)
  | _ => false

/-- `check_confusing_chars` (lines 274–283). -/
def checkConfusingChars (password : String) : Bool × ℚ :=
  let cnt := confusingCount password
  let consec := hasConsecutiveConfusing password.data
  let penalty : ℚ := if consec then 3/10 else if cnt ≥ 2 then 1/5 else 0
  (cnt ≥ 2 || consec, penalty)

/-! ## Pronounceability (lines 285–295) -/

/-- The vowel-run counter of lines 288–294 (`prev_vowel` threading). -/
def syllableCountAux : Bool → List Char → ℕ
  | _, [] => 0
  | prev, c :: cs =>
      let isV := VOWELS.contains c
      (if isV && !prev then 1 else 0) + syllableCountAux isV cs

def syllableCount (password : String) : ℕ :=
  syllableCountAux false (pyLower password.data)

/-- The value `min(1.0, syllable_count / (len(password) / 4))` of line 295,
for a NONEMPTY password.  (On the empty string the source divides by
`0 / 4 = 0.0` and raises `ZeroDivisionError`; `estimatePronounceability`
below models that.  Here the `ℚ`-division would silently yield 0.) -/
def estimatePronounceabilityTotal (password : String) : ℚ :=
  min 1 ((syllableCount password : ℚ) / ((password.length : ℚ) / 4))

/-- `estimate_pronounceability` (lines 285–295) as observed by a caller:
on the empty string the unguarded `syllable_count / (len(password) / 4)`
raises `ZeroDivisionError` (modelled as `none`); otherwise the
normalized 0–1 estimate is returned. -/
def estimatePronounceability (password : String) : Option ℚ :=
  if password.length = 0 then none else some (estimatePronounceabilityTotal password)

/-! ## History ledger (lines 297–310) -/

/-- `hashlib.sha256(password.encode()).hexdigest()` (lines 299, 307),
modelled by an injective placeholder (the candidate itself): the program
only ever compares digests for equality, and SHA-256 is treated as
collision-free. -/
def digest (password : String) : String := password

/-- `(hash, score, timestamp)` triples stored in `self.password_history`. -/
abbrev HistoryEntry := String × ℤ × String

/-- `check_password_reuse` (lines 297–303): linear scan for an equal
stored digest. -/
def checkPasswordReuse (history : List HistoryEntry) (password : String) : Bool × ℚ :=
  if history.any (fun e => e.1 == digest password) then (true, 1/2) else (false, 0)

/-- `add_to_history` (lines 305–310): unconditional append, then
`pop(0)` once the length exceeds 50. -/
def addToHistory (history : List HistoryEntry) (password : String) (score : ℤ)
    (now : String) : List HistoryEntry :=
  let h := history ++ [(digest password, score, now)]
  if h.length > 50 then h.tail else h

/-! ## Scoring engine: `score_password` (lines 312–400)

The engine's two impure ingredients are passed in an environment: `log` /
`log2` stand for `math.log` / `math.log2`, `zxcvbn` is the raw 0–4 score of
the optional oracle (`none` when `zxcvbn` is unavailable or raises, in
which case the source silently keeps the local score), and `now` is the
timestamp `datetime.now().strftime(...)`. -/

structure Env where
  log : ℚ → ℚ
  log2 : ℚ → ℚ
  zxcvbn : Option ℚ
  now : String

/-- Length scoring (lines 330–335). -/
def lengthScore (log : ℚ → ℚ) (password : String) : ℚ :=
  if password.length < 8 then max 0 ((password.length : ℚ) * 5)
  else min 50 (20 + 10 * log ((password.length : ℚ) - 5))

/-- `variety_count = sum(char_types.values())` (lines 337–344). -/
def charTypesCount (password : String) : ℕ :=
  (if password.data.any Char.isLower then 1 else 0) +
  (if password.data.any Char.isUpper then 1 else 0) +
  (if password.data.any Char.isDigit then 1 else 0) +
  (if password.data.any (fun c => PUNCT_SYMBOLS.contains c) then 1 else 0)

/-- `min(25, variety_count * 6.25)` (line 345). -/
def varietyScore (password : String) : ℚ :=
  min 25 ((charTypesCount password : ℚ) * (25/4))

/-- Balanced-composition bonus (lines 347–349). -/
def bonusPoints (password : String) : ℚ :=
  if charTypesCount password ≥ 3 ∧ password.length ≥ 8 then 5 else 0

/-- Uniqueness scoring (lines 351–356): Shannon entropy of the
character-frequency distribution of the lowered password, only when more
than one distinct character occurs. -/
def uniquenessScore (log2 : ℚ → ℚ) (password : String) : ℚ :=
  let l := pyLower password.data
  if 1 < l.dedup.length then
    let entropy := -(l.dedup.map (fun c =>
      ((l.count c : ℚ) / (password.length : ℚ)) *
        log2 ((l.count c : ℚ) / (password.length : ℚ)))).sum
    min 15 (entropy * 3)
  else 0

/-- Line 359.  For nonempty passwords (the only ones reaching line 359)
`estimatePronounceabilityTotal` is exactly the value
`estimate_pronounceability` returns. -/
def pronounceabilityScore (password : String) : ℚ :=
  estimatePronounceabilityTotal password * 10

/-- `sum(pattern["penalty"] * 10 for pattern in patterns)` (line 364).
For nonempty passwords `detectPatternsTotal` is exactly the list
`detect_patterns` returns. -/
def totalPatternPenalty (password : String) : ℚ :=
  ((detectPatternsTotal password).map (fun f => f.penalty * 10)).sum

/-- `blacklist_penalty * 30` (lines 367–368). -/
def blacklistPenalty (password : String) : ℚ :=
  (checkCommonPasswords password).2 * 30

/-- `confusing_penalty * 10` (lines 371–372). -/
def confusingPenalty (password : String) : ℚ :=
  (checkConfusingChars password).2 * 10

/-- `reuse_penalty * 10` (lines 375–376), against the history as it stands
BEFORE this call appends. -/
def reusePenalty (history : List HistoryEntry) (password : String) : ℚ :=
  (checkPasswordReuse history password).2 * 10

/-- Hint relevance bonus (lines 379–380): `hint` truthy and a
case-insensitive substring of the password. -/
def hintRelevanceScore (password hint : String) : ℚ :=
  if hint ≠ "" ∧ strIn (pyLower hint.data) (pyLower password.data) then 5 else 0

/-- `base_score` (lines 383–385). -/
def baseScore (env : Env) (password hint : String) : ℚ :=
  lengthScore env.log password + varietyScore password +
  uniquenessScore env.log2 password + pronounceabilityScore password +
  hintRelevanceScore password hint + bonusPoints password

/-- `final_score = max(0, min(100, base_score - ...))` (lines 386–388). -/
def clampedScore (env : Env) (history : List HistoryEntry) (password hint : String) : ℚ :=
  max 0 (min 100 (baseScore env password hint -
    totalPatternPenalty password - blacklistPenalty password -
    confusingPenalty password - reusePenalty history password))

/-- The integer score returned (and recorded) by `score_password`
(lines 390–400): with the oracle available, the 70/30 blend
`int(final_score * 0.7 + (zxcvbn_score / 4) * 100 * 0.3)`; otherwise
`int(final_score)`.  (The source's final `int(final_score)` on the blend
branch re-truncates an integer, a no-op.) -/
def finalScore (env : Env) (history : List HistoryEntry) (password hint : String) : ℤ :=
  match env.zxcvbn with
  | some r =>
      pyInt (clampedScore env history password hint * (7/10) + ((r / 4) * 100) * (3/10))
  | none => pyInt (clampedScore env history password hint)

/-- The `analysis` dict of `score_password`.  Each field is `none` when the
corresponding key is absent from the dict (`zxcvbn_feedback`, purely
presentational, is omitted). -/
structure Analysis where
  error : Option String := none
  length_score : Option ℚ := none
  variety_score : Option ℚ := none
  uniqueness_score : Option ℚ := none
  pronounceability_score : Option ℚ := none
  pattern_penalties : Option (List Finding) := none
  total_penalty : Option ℚ := none
  blacklist_penalty : Option ℚ := none
  confusing_penalty : Option ℚ := none
  reuse_penalty : Option ℚ := none
  hint_relevance_score : Option ℚ := none
  bonus_points : Option ℚ := none
deriving Repr, DecidableEq

/-- The analysis dict built by lines 317–385 for a nonempty password. -/
def fullAnalysis (env : Env) (history : List HistoryEntry) (password hint : String) : Analysis :=
  { error := none
    length_score := some (lengthScore env.log password)
    variety_score := some (varietyScore password)
    uniqueness_score := some (uniquenessScore env.log2 password)
    pronounceability_score := some (pronounceabilityScore password)
    pattern_penalties := some (detectPatternsTotal password)
    total_penalty := some (totalPatternPenalty password)
    blacklist_penalty := some (blacklistPenalty password)
    confusing_penalty := some (confusingPenalty password)
    reuse_penalty := some (reusePenalty history password)
    hint_relevance_score := some (hintRelevanceScore password hint)
    bonus_points := some (bonusPoints password) }

/-- `score_password` (lines 312–400).  Returns the integer score, the
analysis dict, and the password history after the call (the mutation of
`self.password_history` made explicit).  The empty candidate returns
`(0, \x7b"error": "Empty password"\x7d)` at line 315 WITHOUT touching the
history.  (Modelling note: on the oracle-free path the source hands the
still-unfloored clamped float to `add_to_history` while returning
`int()` of it; we record the returned integer — the stored score is
declared `int` and is never read back by the engine.) -/
def scorePassword (env : Env) (history : List HistoryEntry) (password hint : String) :
    ℤ × Analysis × List HistoryEntry :=
  if password = "" then (0, { error := some "Empty password" }, history)
  else
    (finalScore env history password hint,
     fullAnalysis env history password hint,
     addToHistory history password (finalScore env history password hint) env.now)

/-- `is_valid_password` (lines 127–132): `False` below 8 characters,
otherwise one `score_password` call (side effect included) and `score >= 60`. -/
def isValidPassword (env : Env) (history : List HistoryEntry) (password : String) :
    Bool × List HistoryEntry :=
  if password.length < 8 then (false, history)
  else
    let r := scorePassword env history password ""
    (decide (r.1 ≥ 60), r.2.2)

/-- A sequence of further `score_password` calls (candidate, hint),
tracking only the history they thread through. -/
def runCalls (env : Env) (history : List HistoryEntry)
    (calls : List (String × String)) : List HistoryEntry :=
  calls.foldl (fun h c => (scorePassword env h c.1 c.2).2.2) history

/-! ## Memorable-password generator: `generate_memorable_password`
(lines 519–555).

The four `random` draws of the function — `random.choice(["Secure",
"Strong", "Safe"])` (line 545), `random.randint(2020, 2025)` (line 547),
`random.choice(config["symbols"])` (line 548) and `random.choice(["Pro",
"Max", "Plus"])` (line 552) — are passed in as arguments so that every
outcome can be quantified over. -/

/-- Python `str.title()` on the alphanumeric-only strings produced by the
hint cleaning: a letter is upper-cased at the start and after any
non-letter (e.g. after a digit), and lower-cased elsewhere. -/
def pyTitleAux : Bool → List Char → List Char
  | _, [] => []
  | cap, c :: cs =>
      if c.isAlpha then (if cap then c.toUpper else c.toLower) :: pyTitleAux false cs
      else c :: pyTitleAux true cs

def pyTitle (l : List Char) : List Char := pyTitleAux true l

/-- The character class kept by `re.sub(r'[^a-zA-Z0-9]', '', hint)`
(line 523). -/
def isAlnum (c : Char) : Bool := c.isAlpha || c.isDigit

/-- `config["symbols"]` from `complexity_configs.get(complexity, ...)`
(lines 527–532); unknown complexities fall back to "balanced". -/
def configSymbols (complexity : String) : List String :=
  if complexity = "simple" then ["!", "#"]
  else if complexity = "complex" then ["!", "@", "#", "$", "%"]
  else ["!", "@", "#", "$"]

/-- `config["transformations"]` (lines 527–532): `False` only for
"simple"; `config["numbers"]` is `True` in every configuration. -/
def configTransformations (complexity : String) : Bool := complexity ≠ "simple"

/-- `generate_memorable_password(hint, length, complexity)` (lines
519–555) with the four random draws (`secWord`, `year`, `symbol`, `pad`)
made explicit. -/
def generateMemorablePassword (secWord : String) (year : ℕ) (symbol pad : String)
    (hint : String) (length : ℕ) (complexity : String) : String :=
  let hint0 := if hint = "" then "Secure" else hint
  let hintClean0 := String.mk (pyTitle (hint0.data.filter isAlnum))
  let hintClean := if hintClean0.length < 3 then "Secure" ++ hintClean0 else hintClean0
  let firstComponent :=
    if configTransformations complexity then
      let t0 := hintClean.data
      let t1 := if (pyLower t0).contains 'a' then replace1 (replace1 t0 'a' '@') 'A' '@' else t0
      let t2 := if (pyLower t1).contains 'e' then replace1 (replace1 t1 'e' '3') 'E' '3' else t1
      t2
    else hintClean.data
  -- components = [hint part, security word, str(year) (numbers is always True), symbol]
  let password := String.mk firstComponent ++ secWord ++ toString year ++ symbol
  if password.length < length then password ++ pad
  else if password.length > length then String.mk (password.data.take length)
  else password

/-! ## Concrete environments used by the closed statements below -/

/-- An environment with the oracle unavailable (`ZXCVBN_AVAILABLE` false);
the unintepreted `log`/`log2` are instantiated arbitrarily — no claim
below depends on their values. -/
def testEnv : Env :=
  { log := fun _ => 0, log2 := fun _ => 0, zxcvbn := none,
    now := "2025-01-01 00:00:00" }

/-- An environment in which the oracle is available and returned the raw
zxcvbn score 2 (of 0–4). -/
def oracleEnv : Env :=
  { log := fun _ => 0, log2 := fun _ => 0, zxcvbn := some 2,
    now := "2025-01-01 00:00:00" }

/-! ## Helper lemmas -/

/-- A string of length 0 is the empty string. -/
theorem eq_empty_of_length_zero {p : String} (h : p.length = 0) : p = "" :=
  String.ext (List.length_eq_zero.mp h)

/-- For nonnegative rationals, Python `int()` truncation agrees with the
floor. -/
theorem pyInt_eq_floor (q : ℚ) (h : 0 ≤ q) : pyInt q = ⌊q⌋ := by
  unfold pyInt
  rw [Int.tdiv_eq_ediv (Rat.num_nonneg.mpr h) (Int.natCast_nonneg q.den)]
  exact Rat.floor_def.symm

theorem pyInt_nonneg (q : ℚ) (h : 0 ≤ q) : 0 ≤ pyInt q := by
  rw [pyInt_eq_floor q h]; exact Int.floor_nonneg.mpr h

theorem pyInt_le (q : ℚ) (n : ℤ) (h0 : 0 ≤ q) (h : q ≤ (n : ℚ)) : pyInt q ≤ n := by
  rw [pyInt_eq_floor q h0]
  calc ⌊q⌋ ≤ ⌊(n : ℚ)⌋ := Int.floor_le_floor h
    _ = n := Int.floor_intCast n

theorem pyInt_lt (q : ℚ) (n : ℤ) (h0 : 0 ≤ q) (h : q < (n : ℚ)) : pyInt q < n := by
  rw [pyInt_eq_floor q h0]; exact Int.floor_lt.mpr h

/-- The clamp `max(0, min(100, ...))` is bounded below by 0. -/
theorem clampedScore_nonneg (env : Env) (history : List HistoryEntry)
    (password hint : String) : 0 ≤ clampedScore env history password hint :=
  le_max_left 0 _

/-- The clamp `max(0, min(100, ...))` is bounded above by 100. -/
theorem clampedScore_le (env : Env) (history : List HistoryEntry)
    (password hint : String) : clampedScore env history password hint ≤ 100 :=
  max_le (by norm_num) (min_le_left _ _)

/-- `score_password` on a nonempty candidate: the branch of lines 317–400. -/
theorem scorePassword_of_ne (env : Env) (history : List HistoryEntry)
    (password hint : String) (hp : password ≠ "") :
    scorePassword env history password hint =
      (finalScore env history password hint,
       fullAnalysis env history password hint,
       addToHistory history password (finalScore env history password hint) env.now) := by
  unfold scorePassword
  rw [if_neg hp]

/-- `add_to_history` always ends in the freshly appended entry. -/
theorem addToHistory_append (history : List HistoryEntry) (p : String) (sc : ℤ)
    (now : String) :
    ∃ pre, addToHistory history p sc now = pre ++ [(digest p, sc, now)] := by
  unfold addToHistory
  by_cases h : (history ++ [(digest p, sc, now)]).length > 50
  · rw [if_pos h]
    cases history with
    | nil => simp at h
    | cons a t => exact ⟨t, by simp⟩
  · rw [if_neg h]
    exact ⟨history, rfl⟩

/-- Threading any further scoring calls through the ledger never loses an
entry that has at most `49 - calls.length` entries after it: a `pop(0)`
reaches it only after at least 50 further appends. -/
theorem runCalls_mem (env : Env) :
    ∀ (calls : List (String × String)) (pre suf : List HistoryEntry) (e : HistoryEntry),
      suf.length + calls.length ≤ 49 →
      ∃ pre2 suf2, runCalls env (pre ++ e :: suf) calls = pre2 ++ e :: suf2 := by
  intro calls
  induction calls with
  | nil => exact fun pre suf e _ => ⟨pre, suf, rfl⟩
  | cons c cs ih =>
    intro pre suf e hle
    have hstep : runCalls env (pre ++ e :: suf) (c :: cs) =
        runCalls env ((scorePassword env (pre ++ e :: suf) c.1 c.2).2.2) cs := rfl
    by_cases hc : c.1 = ""
    · have hkeep : (scorePassword env (pre ++ e :: suf) c.1 c.2).2.2 = pre ++ e :: suf := by
        rw [hc]; rfl
      rw [hstep, hkeep]
      exact ih pre suf e (by simp at hle ⊢; omega)
    · have happ : (scorePassword env (pre ++ e :: suf) c.1 c.2).2.2 =
          addToHistory (pre ++ e :: suf) c.1
            (finalScore env (pre ++ e :: suf) c.1 c.2) env.now := by
        rw [scorePassword_of_ne env (pre ++ e :: suf) c.1 c.2 hc]
      rw [hstep, happ]
      set x : HistoryEntry :=
        (digest c.1, finalScore env (pre ++ e :: suf) c.1 c.2, env.now) with hx
      unfold addToHistory
      by_cases hpop : ((pre ++ e :: suf) ++ [x]).length > 50
      · rw [if_pos hpop]
        cases pre with
        | nil =>
          exfalso
          simp [List.length_append] at hpop hle
          omega
        | cons a pre2 =>
          have htail : ((a :: pre2 ++ e :: suf) ++ [x]).tail = pre2 ++ e :: (suf ++ [x]) := by
            simp
          rw [htail]
          exact ih pre2 (suf ++ [x]) e (by simp at hle ⊢; omega)
      · rw [if_neg hpop]
        have hassoc : (pre ++ e :: suf) ++ [x] = pre ++ e :: (suf ++ [x]) := by simp
        rw [hassoc]
        exact ih pre (suf ++ [x]) e (by simp at hle ⊢; omega)

/-! ## Claims -/

/-- Claim C1, counterexample: the matching/scoring operations are NOT
total on every string — on the empty candidate `detect_patterns` raises
`ZeroDivisionError` at the unguarded `symbol_count / len(password)`
(line 265), and so does `estimate_pronounceability` at
`syllable_count / (len(password) / 4)` (line 295); neither returns a
value. -/
theorem C1_counterexample :
    detectPatterns "" = none ∧ estimatePronounceability "" = none :=
  ⟨rfl, rfl⟩

/-- Claim C1, amended: the empty candidate is the only failing input, and
it breaks exactly two operations — `detect_patterns` and
`estimate_pronounceability` both raise `ZeroDivisionError` on it.  On
every NONEMPTY candidate (non-ASCII and symbol-only included) both return
a value — the values `score_password` records — and `score_password`
itself is total on ALL candidates, the empty one included, because it
returns at line 315 before reaching either division. -/
theorem C1_theorem : ∀ (env : Env) (history : List HistoryEntry) (password hint : String),
    password ≠ "" →
    detectPatterns password = some (detectPatternsTotal password) ∧
    estimatePronounceability password = some (estimatePronounceabilityTotal password) ∧
    (scorePassword env history password hint).2.1.pattern_penalties =
      some (detectPatternsTotal password) ∧
    (scorePassword env history password hint).2.1.pronounceability_score =
      some (estimatePronounceabilityTotal password * 10) := by
  intro env history password hint hp
  have hlen : password.length ≠ 0 := fun h0 => hp (eq_empty_of_length_zero h0)
  refine ⟨?_, ?_, ?_, ?_⟩
  · unfold detectPatterns
    rw [if_neg hlen]
  · unfold estimatePronounceability
    rw [if_neg hlen]
  · rw [scorePassword_of_ne env history password hint hp]
    rfl
  · rw [scorePassword_of_ne env history password hint hp]
    rfl

/-- Claim C1, witness of the amended theorem at a symbol-only candidate. -/
theorem C1_witness :
    detectPatterns "@@@@" = some (detectPatternsTotal "@@@@") ∧
    estimatePronounceability "@@@@" = some (estimatePronounceabilityTotal "@@@@") ∧
    (scorePassword testEnv [] "@@@@" "").2.1.pattern_penalties =
      some (detectPatternsTotal "@@@@") ∧
    (scorePassword testEnv [] "@@@@" "").2.1.pronounceability_score =
      some (estimatePronounceabilityTotal "@@@@" * 10) :=
  C1_theorem testEnv [] "@@@@" "" (by decide)

/-- Claim C2: for every candidate, hint, history and oracle availability,
the returned integer score lies in [0, 100]; on the blend path this uses
that the oracle's 0–100-normalized output `(r / 4) * 100` is itself within
[0, 100]. -/
theorem C2_theorem : ∀ (env : Env) (history : List HistoryEntry) (password hint : String),
    (∀ r, env.zxcvbn = some r → 0 ≤ (r / 4) * 100 ∧ (r / 4) * 100 ≤ 100) →
    0 ≤ (scorePassword env history password hint).1 ∧
    (scorePassword env history password hint).1 ≤ 100 := by
  intro env history password hint hz
  by_cases hp : password = ""
  · subst hp
    refine ⟨le_refl 0, ?_⟩
    show (0 : ℤ) ≤ 100
    norm_num
  · rw [scorePassword_of_ne env history password hint hp]
    dsimp only
    unfold finalScore
    have c0 := clampedScore_nonneg env history password hint
    have c100 := clampedScore_le env history password hint
    cases hzx : env.zxcvbn with
    | none =>
      exact ⟨pyInt_nonneg _ c0, pyInt_le _ 100 c0 (by push_cast; linarith)⟩
    | some r =>
      obtain ⟨hz0, hz100⟩ := hz r hzx
      have b0 : 0 ≤ clampedScore env history password hint * (7/10) +
          ((r / 4) * 100) * (3/10) :=
        add_nonneg (mul_nonneg c0 (by norm_num)) (mul_nonneg hz0 (by norm_num))
      refine ⟨pyInt_nonneg _ b0, pyInt_le _ 100 b0 ?_⟩
      push_cast
      nlinarith [c100, hz100]

/-- Claim C2, witness: a concrete candidate scored with the oracle present
(raw zxcvbn score 2, normalized 50). -/
theorem C2_witness :
    0 ≤ (scorePassword oracleEnv [] "Sunset2024!" "sunset").1 ∧
    (scorePassword oracleEnv [] "Sunset2024!" "sunset").1 ≤ 100 :=
  C2_theorem oracleEnv [] "Sunset2024!" "sunset" (fun r hr => by
    have h2 : some (2 : ℚ) = some r := hr
    obtain rfl : r = 2 := (Option.some.inj h2).symm
    exact ⟨by norm_num, by norm_num⟩)

/-- Claim C3, counterexample: scoring the EMPTY candidate does not append
a HistoryEntry — line 315 returns before `add_to_history`, so the history
stays at length 0 instead of growing to 1. -/
theorem C3_counterexample : (scorePassword testEnv [] "" "").2.2.length = 0 := rfl

/-- Claim C3, amended: every `score_password` call on a NONEMPTY candidate
appends exactly one HistoryEntry `(digest, score, timestamp)` — whatever
the score, 0 included — growing the history by exactly one entry below
capacity; the empty candidate returns early and appends nothing. -/
theorem C3_theorem : ∀ (env : Env) (history : List HistoryEntry) (password hint : String),
    password ≠ "" → history.length < 50 →
    (scorePassword env history password hint).2.2 =
      history ++ [(digest password, (scorePassword env history password hint).1, env.now)] ∧
    (scorePassword env history password hint).2.2.length = history.length + 1 := by
  intro env history password hint hp hlen
  rw [scorePassword_of_ne env history password hint hp]
  dsimp only
  unfold addToHistory
  rw [if_neg (by simp [List.length_append]; omega)]
  exact ⟨rfl, by simp⟩

/-- Claim C3, witness at a one-character candidate and empty history. -/
theorem C3_witness :
    ("a" : String) ≠ "" ∧ ([] : List HistoryEntry).length < 50 ∧
    ((scorePassword testEnv [] "a" "").2.2 =
      [] ++ [(digest "a", (scorePassword testEnv [] "a" "").1, testEnv.now)] ∧
     (scorePassword testEnv [] "a" "").2.2.length = ([] : List HistoryEntry).length + 1) :=
  ⟨by decide, by decide, C3_theorem testEnv [] "a" "" (by decide) (by decide)⟩

/-- Claim C4, counterexample: the breakdown of `score(\x22\x22)` does not
carry a zero length component (nor any other component) — the dict built
at line 315 contains only the error marker, so the component keys are
absent rather than present-and-zero. -/
theorem C4_counterexample :
    (scorePassword testEnv [] "" "").2.1.length_score ≠ some 0 := by decide

/-- Claim C4, amended: `score(\x22\x22)` returns final score 0 and a
breakdown whose error marker is set and in which every component score
(length, variety, uniqueness, pronounceability, bonuses and all four
penalty components) is ABSENT — and the history is left untouched. -/
theorem C4_theorem : ∀ (env : Env) (history : List HistoryEntry) (hint : String),
    scorePassword env history "" hint = (0, { error := some "Empty password" }, history) :=
  fun _ _ _ => rfl

/-- Claim C5, counterexample: NOT every outcome of the random choices has
length 16 — with the legal draws `Safe` / 2020 / `!` / `Pro`, the joined
components reach only 15 characters, the padding branch at line 552
appends a whole word, and the result has 18 characters. -/
theorem C5_counterexample :
    (("Safe" : String) ∈ ["Secure", "Strong", "Safe"] ∧
     ("!" : String) ∈ configSymbols "balanced" ∧
     ("Pro" : String) ∈ ["Pro", "Max", "Plus"]) ∧
    (generateMemorablePassword "Safe" 2020 "!" "Pro" "sunset" 16 "balanced").length = 18 := by
  decide

/-- Claim C5, amended: for every outcome of the random choices,
`generate_memorable_password("sunset", 16, "balanced")` starts with the
transformed hint "Suns3t" (leet-substituted title-cased "sunset"); its
length is exactly 16 when the drawn security word is "Secure" or "Strong"
(truncation), but 18 or 19 when it is "Safe" (the padding branch
overshoots the requested length). -/
theorem C5_theorem : ∀ (secWord : String) (year : ℕ) (symbol pad : String),
    secWord ∈ ["Secure", "Strong", "Safe"] → 2020 ≤ year → year ≤ 2025 →
    symbol ∈ configSymbols "balanced" → pad ∈ ["Pro", "Max", "Plus"] →
    (List.isPrefixOf "Suns3t".data
        (generateMemorablePassword secWord year symbol pad "sunset" 16 "balanced").data = true ∧
     ((secWord = "Secure" ∨ secWord = "Strong") →
        (generateMemorablePassword secWord year symbol pad "sunset" 16 "balanced").length = 16) ∧
     (secWord = "Safe" →
        (generateMemorablePassword secWord year symbol pad "sunset" 16 "balanced").length = 18 ∨
        (generateMemorablePassword secWord year symbol pad "sunset" 16 "balanced").length = 19)) := by
  intro secWord year symbol pad hw hy1 hy2 hs hpd
  interval_cases year <;> fin_cases hw <;> fin_cases hs <;> fin_cases hpd <;> decide

/-- Claim C5, witness of the amended theorem at the draws
`Secure` / 2021 / `@` / `Max`. -/
theorem C5_witness :
    List.isPrefixOf "Suns3t".data
        (generateMemorablePassword "Secure" 2021 "@" "Max" "sunset" 16 "balanced").data = true ∧
    ((("Secure" : String) = "Secure" ∨ ("Secure" : String) = "Strong") →
        (generateMemorablePassword "Secure" 2021 "@" "Max" "sunset" 16 "balanced").length = 16) ∧
    (("Secure" : String) = "Safe" →
        (generateMemorablePassword "Secure" 2021 "@" "Max" "sunset" 16 "balanced").length = 18 ∨
        (generateMemorablePassword "Secure" 2021 "@" "Max" "sunset" 16 "balanced").length = 19) :=
  C5_theorem "Secure" 2021 "@" "Max" (by decide) (by decide) (by decide) (by decide) (by decide)

/-- Claim C6, counterexample: `detect_patterns("aaaaaaaa")` produces NO
low-vowel-density finding — "aaaaaaaa" is all vowels, so its vowel
fraction is 1, far above the 0.1 threshold of line 246. -/
theorem C6_counterexample :
    (detectPatternsTotal "aaaaaaaa").any (fun f => f.ftype == "low_vowels") = false := by
  decide

/-- Claim C6, amended: for "aaaaaaaa", `detect_patterns` produces a
repeated-character finding (together with repeated-token, palindrome and
alternating-pattern findings) but NO low-vowel finding, and
`is_valid_password("aaaaaaaa")` is false for every history and every
0–100-normalized oracle outcome. -/
theorem C6_theorem : ∀ (env : Env) (history : List HistoryEntry),
    (∀ r, env.zxcvbn = some r → 0 ≤ (r / 4) * 100 ∧ (r / 4) * 100 ≤ 100) →
    ((detectPatternsTotal "aaaaaaaa").any (fun f => f.ftype == "repeated_character") = true ∧
     (detectPatternsTotal "aaaaaaaa").any (fun f => f.ftype == "low_vowels") = false ∧
     (detectPatternsTotal "aaaaaaaa").any (fun f => f.ftype == "repeated_token") = true ∧
     (detectPatternsTotal "aaaaaaaa").any (fun f => f.ftype == "palindrome") = true ∧
     (detectPatternsTotal "aaaaaaaa").any (fun f => f.ftype == "alternating_pattern") = true) ∧
    (isValidPassword env history "aaaaaaaa").1 = false := by
  intro env history hz
  refine ⟨by decide, ?_⟩
  have hlen : lengthScore env.log "aaaaaaaa" ≤ 50 := by
    unfold lengthScore
    rw [if_neg (by decide)]
    exact min_le_left _ _
  have hreuse : 0 ≤ reusePenalty history "aaaaaaaa" := by
    unfold reusePenalty checkPasswordReuse
    split <;> norm_num
  have huniq : uniquenessScore env.log2 "aaaaaaaa" = 0 := by
    unfold uniquenessScore
    rw [if_neg (by decide)]
  have hbase : baseScore env "aaaaaaaa" "" ≤ 245/4 := by
    unfold baseScore
    rw [huniq, show varietyScore "aaaaaaaa" = 25/4 from by decide,
        show pronounceabilityScore "aaaaaaaa" = 5 from by decide,
        show hintRelevanceScore "aaaaaaaa" "" = 0 from by decide,
        show bonusPoints "aaaaaaaa" = 0 from by decide]
    linarith
  have hclamp : clampedScore env history "aaaaaaaa" "" ≤ 161/4 := by
    unfold clampedScore
    apply max_le (by norm_num)
    refine le_trans (min_le_right _ _) ?_
    rw [show totalPatternPenalty "aaaaaaaa" = 21 from by decide,
        show blacklistPenalty "aaaaaaaa" = 0 from by decide,
        show confusingPenalty "aaaaaaaa" = 0 from by decide]
    linarith
  have hsc : (scorePassword env history "aaaaaaaa" "").1 < 60 := by
    rw [scorePassword_of_ne env history "aaaaaaaa" "" (by decide)]
    dsimp only
    unfold finalScore
    have c0 := clampedScore_nonneg env history "aaaaaaaa" ""
    cases hzx : env.zxcvbn with
    | none => exact pyInt_lt _ 60 c0 (by push_cast; linarith)
    | some r =>
      obtain ⟨hz0, hz100⟩ := hz r hzx
      refine pyInt_lt _ 60
        (add_nonneg (mul_nonneg c0 (by norm_num)) (mul_nonneg hz0 (by norm_num))) ?_
      push_cast
      nlinarith [hclamp, hz100]
  unfold isValidPassword
  rw [if_neg (by decide)]
  dsimp only
  exact decide_eq_false (not_le.mpr hsc)

/-- Claim C6, witness of the amended theorem with the oracle present. -/
theorem C6_witness :
    ((detectPatternsTotal "aaaaaaaa").any (fun f => f.ftype == "repeated_character") = true ∧
     (detectPatternsTotal "aaaaaaaa").any (fun f => f.ftype == "low_vowels") = false ∧
     (detectPatternsTotal "aaaaaaaa").any (fun f => f.ftype == "repeated_token") = true ∧
     (detectPatternsTotal "aaaaaaaa").any (fun f => f.ftype == "palindrome") = true ∧
     (detectPatternsTotal "aaaaaaaa").any (fun f => f.ftype == "alternating_pattern") = true) ∧
    (isValidPassword oracleEnv [] "aaaaaaaa").1 = false :=
  C6_theorem oracleEnv [] (fun r hr => by
    have h2 : some (2 : ℚ) = some r := hr
    obtain rfl : r = 2 := (Option.some.inj h2).symm
    exact ⟨by norm_num, by norm_num⟩)

/-- Claim C7: `check_common_passwords` flags both "Passw0rd!" and
"P@ssword" with `is_match = true` and strength 0.7 (∈ \x7b0.7, 0.9\x7d); each
matches the corpus entry "password" after edge-stripping and leet
reversal. -/
theorem C7_theorem :
    checkCommonPasswords "Passw0rd!" = (true, 7/10) ∧
    checkCommonPasswords "P@ssword" = (true, 7/10) ∧
    isSimilarPassword (pyLower "Passw0rd!".data) "password".data = true ∧
    isSimilarPassword (pyLower "P@ssword".data) "password".data = true := by
  decide

/-- Claim C8: the ledger is capacity-bounded FIFO — `add_to_history`
keeps at most 50 entries, appends the new entry unconditionally, and,
exactly when the bound would be exceeded, evicts exactly the oldest
(first) entry. -/
theorem C8_theorem : ∀ (history : List HistoryEntry) (p : String) (sc : ℤ) (now : String),
    history.length ≤ 50 →
    ((addToHistory history p sc now).length ≤ 50 ∧
     (∃ pre, addToHistory history p sc now = pre ++ [(digest p, sc, now)]) ∧
     (history.length < 50 →
        addToHistory history p sc now = history ++ [(digest p, sc, now)]) ∧
     (history.length = 50 →
        addToHistory history p sc now = history.tail ++ [(digest p, sc, now)])) := by
  intro history p sc now hle
  unfold addToHistory
  by_cases h : (history ++ [(digest p, sc, now)]).length > 50
  · have h50 : history.length = 50 := by simp [List.length_append] at h; omega
    rw [if_pos h]
    cases history with
    | nil => exact absurd h50 (by decide)
    | cons a t =>
      refine ⟨?_, ⟨t, by simp⟩, fun hlt => absurd h50 (by omega), fun _ => by simp⟩
      have htail : ((a :: t) ++ [(digest p, sc, now)]).tail = t ++ [(digest p, sc, now)] := by
        simp
      rw [htail, List.length_append]
      simp only [List.length_cons] at h50
      simp
      omega
  · have hlt : history.length < 50 := by simp [List.length_append] at h; omega
    rw [if_neg h]
    exact ⟨by simp [List.length_append]; omega, ⟨history, rfl⟩, fun _ => rfl,
      fun h50 => absurd h50 (by omega)⟩

/-- Claim C8, witness at the empty ledger. -/
theorem C8_witness :
    (addToHistory [] "x" 7 "t").length ≤ 50 ∧
    (∃ pre, addToHistory [] "x" 7 "t" = pre ++ [(digest "x", 7, "t")]) ∧
    (([] : List HistoryEntry).length < 50 →
       addToHistory [] "x" 7 "t" = [] ++ [(digest "x", 7, "t")]) ∧
    (([] : List HistoryEntry).length = 50 →
       addToHistory [] "x" 7 "t" = List.tail [] ++ [(digest "x", 7, "t")]) :=
  C8_theorem [] "x" 7 "t" (by decide)

/-- Claim C9: variety monotonicity — appending a character of a character
class not yet present to a candidate with fewer than 4 classes never
decreases the variety component `min(25, variety_count * 6.25)`. -/
theorem C9_theorem : ∀ (password : String) (c : Char),
    charTypesCount password < 4 →
    ((c.isLower = true ∧ password.data.any Char.isLower = false) ∨
     (c.isUpper = true ∧ password.data.any Char.isUpper = false) ∨
     (c.isDigit = true ∧ password.data.any Char.isDigit = false) ∨
     (PUNCT_SYMBOLS.contains c = true ∧
        password.data.any (fun x => PUNCT_SYMBOLS.contains x) = false)) →
    varietyScore password ≤ varietyScore (password.push c) := by
  intro password c _ _
  have hdata : (password.push c).data = password.data ++ [c] := rfl
  have hcount : charTypesCount password ≤ charTypesCount (password.push c) := by
    unfold charTypesCount
    rw [hdata, List.any_append, List.any_append, List.any_append, List.any_append]
    have m : ∀ (a b : Bool),
        (if a = true then (1 : ℕ) else 0) ≤ (if (a || b) = true then 1 else 0) := by
      decide
    exact add_le_add (add_le_add (add_le_add (m _ _) (m _ _)) (m _ _)) (m _ _)
  unfold varietyScore
  refine min_le_min (le_refl _) ?_
  have : (charTypesCount password : ℚ) ≤ (charTypesCount (password.push c) : ℚ) := by
    exact_mod_cast hcount
  nlinarith [this]

/-- Claim C9, witness: appending the digit '5' to the all-lowercase "abc". -/
theorem C9_witness : varietyScore "abc" ≤ varietyScore ("abc".push '5') :=
  C9_theorem "abc" '5' (by decide) (by decide)

set_option maxRecDepth 100000 in
/-- Claim C10, counterexample: "at most 50 intervening scoring calls" is
too many — after `is_valid_password("aaaaaaaa")` records the candidate,
exactly 50 further scoring calls (each appending one entry) push the
recorded entry out of the 50-bounded FIFO, and the next scoring of
"aaaaaaaa" reports reuse penalty 0, not a nonzero one. -/
theorem C10_counterexample :
    ("aaaaaaaa" : String).length ≥ 8 ∧
    (List.replicate 50 (("b" : String), ("" : String))).length ≤ 50 ∧
    (scorePassword testEnv
      (runCalls testEnv ((isValidPassword testEnv [] "aaaaaaaa").2)
        (List.replicate 50 ("b", ""))) "aaaaaaaa" "").2.1.reuse_penalty = some 0 := by
  refine ⟨by decide, by decide, by decide⟩

/-- Claim C10, amended: `is_valid_password` on a candidate of length ≥ 8
is not a read-only probe — it scores the candidate and thereby appends its
digest to the ledger, so a later `score_password` call on the same literal
candidate reports the nonzero reuse penalty 5, provided at most 49
scoring calls intervene (with 50 intervening appends the FIFO evicts the
entry). -/
theorem C10_theorem : ∀ (env : Env) (history : List HistoryEntry) (password : String)
    (calls : List (String × String)) (hint : String),
    8 ≤ password.length → calls.length ≤ 49 →
    (scorePassword env (runCalls env (isValidPassword env history password).2 calls)
        password hint).2.1.reuse_penalty = some 5 := by
  intro env history password calls hint hlen hcalls
  have hp : password ≠ "" := by
    intro h
    rw [h] at hlen
    exact absurd hlen (by decide)
  have hvalid : (isValidPassword env history password).2 =
      addToHistory history password (finalScore env history password "") env.now := by
    unfold isValidPassword
    rw [if_neg (by omega)]
    rw [scorePassword_of_ne env history password "" hp]
  obtain ⟨pre, hpre⟩ :=
    addToHistory_append history password (finalScore env history password "") env.now
  obtain ⟨pre2, suf2, hrun⟩ := runCalls_mem env calls pre []
    (digest password, finalScore env history password "", env.now) (by simpa using hcalls)
  rw [hvalid, hpre, hrun]
  rw [scorePassword_of_ne env (pre2 ++ (digest password, finalScore env history password "",
    env.now) :: suf2) password hint hp]
  show some (reusePenalty (pre2 ++ (digest password, finalScore env history password "",
    env.now) :: suf2) password) = some 5
  congr 1
  unfold reusePenalty checkPasswordReuse
  rw [if_pos]
  · norm_num
  · refine List.any_eq_true.mpr
      ⟨(digest password, finalScore env history password "", env.now), ?_, ?_⟩
    · exact List.mem_append.mpr (Or.inr (List.mem_cons_self _ _))
    · simp

/-- Claim C10, witness of the amended theorem: validity-check "aaaaaaaa"
on an empty ledger, no intervening calls, then score it. -/
theorem C10_witness :
    (scorePassword testEnv
      (runCalls testEnv (isValidPassword testEnv [] "aaaaaaaa").2 [])
      "aaaaaaaa" "").2.1.reuse_penalty = some 5 :=
  C10_theorem testEnv [] "aaaaaaaa" [] "" (by decide) (by decide)
